import Mathlib

/-!
Verification of the `glarea` demo program (`src/bin/glarea.rs`).

The program is a GTK + OpenGL demo: it opens a window with a `GLArea`,
compiles a trivial shader pair, uploads a quad, and animates the clear
color with a 2-second period.  We give a shallow embedding of its pure
logic and of its interaction with the GL driver and GTK toolkit:

* float arithmetic in the render closure is modelled over `ℚ` (every
  operation the code performs is embedded as the corresponding exact
  rational operation);
* GL driver calls are modelled by an abstract `Driver` oracle recording
  the driver's responses (created names, status flags, info logs);
* `panic!` is modelled as `Except.error msg` (abort with message), a
  normal return as `Except.ok`;
* the toolkit's callback invocations are modelled as a trace of `Event`s
  processed by a step function over the shared handle cells.
-/

/-! ## GL enumeration constants (values from the `gl` crate) -/

def GL_TRUE : Int := 1
def GL_FALSE : Int := 0
def GL_VERTEX_SHADER : Nat := 0x8B31
def GL_FRAGMENT_SHADER : Nat := 0x8B30
def GL_ARRAY_BUFFER : Nat := 0x8892
def GL_ELEMENT_ARRAY_BUFFER : Nat := 0x8893
def GL_COLOR_BUFFER_BIT : Nat := 0x4000
def GL_TRIANGLES : Nat := 0x0004
def GL_UNSIGNED_SHORT : Nat := 0x1403
def GL_FLOAT : Nat := 0x1406
def GL_STATIC_DRAW : Nat := 0x88E4

/-! ## Elapsed time and clear color (render closure, glarea.rs:297-303)

`let millis = dur.as_secs() * 1_000 + (dur.subsec_nanos() as u64) / 1_000_000;`
`let t = ((millis % 2000) as f32) / 1000.0;`
`gl::ClearColor(t / 2.0, 1.0 - (t / 2.0), 1.0, 1.0);`
-/

/-- `dur.as_secs() * 1_000 + (dur.subsec_nanos() as u64) / 1_000_000`:
the whole-millisecond count of a duration given as seconds plus
sub-second nanoseconds (`subsec_nanos < 10^9`). -/
def durationMillis (secs nanos : Nat) : Nat :=
  secs * 1000 + nanos / 1000000

/-- `((millis % 2000) as f32) / 1000.0`, over exact rationals. -/
def phaseOf (millis : Nat) : ℚ :=
  ((millis % 2000 : Nat) : ℚ) / 1000

/-- The four arguments passed to `gl::ClearColor`:
`(t / 2.0, 1.0 - (t / 2.0), 1.0, 1.0)`. -/
def clearColorOf (millis : Nat) : ℚ × ℚ × ℚ × ℚ :=
  let t := phaseOf millis
  (t / 2, 1 - t / 2, 1, 1)

/-! ## Geometry constants (realize closure, glarea.rs:223-232) -/

/-- `let verts: [f32; 8] = [0.5, 0.5, -0.5, 0.5, -0.5, -0.5, 0.5, -0.5];` -/
def verts : List ℚ := [0.5, 0.5, -0.5, 0.5, -0.5, -0.5, 0.5, -0.5]

/-- `let indices: [u16; 6] = [0, 1, 2, 2, 3, 0];` -/
def indices : List Nat := [0, 1, 2, 2, 3, 0]

/-- The `i`-th 2D point of the vertex buffer (two consecutive floats,
matching the attribute layout `VertexAttribPointer(0, 2, FLOAT, ...)`). -/
def pointOf (i : Nat) : ℚ × ℚ :=
  (verts.getD (2 * i) 0, verts.getD (2 * i + 1) 0)

/-- The point referenced by the `k`-th entry of the index buffer. -/
def triPoint (k : Nat) : ℚ × ℚ :=
  pointOf (indices.getD k 0)

/-- Twice the signed area of triangle `(a, b, c)`; positive iff the
triangle is wound counter-clockwise. -/
def cross2 (a b c : ℚ × ℚ) : ℚ :=
  (b.1 - a.1) * (c.2 - a.2) - (b.2 - a.2) * (c.1 - a.1)

/-! ## The GL driver oracle

GL calls are answered by the driver.  We model the driver as an abstract
deterministic oracle: `createShader` is the name returned by
`gl::CreateShader` for a stage type, `compileStatus shader src` the
`COMPILE_STATUS` reported after compiling `src` in `shader`, and so on.
`genBuf1`/`genBuf2`/`genVAO` are the names written by the two
`gl::GenBuffers` calls and the `gl::GenVertexArrays` call of the realize
closure, in that order. -/

structure Driver where
  createShader : Nat → Nat
  compileStatus : Nat → String → Int
  shaderInfoLogLength : Nat → Int
  shaderInfoLog : Nat → String
  createProgram : Nat
  linkStatus : Nat → Nat → Int
  programInfoLogLength : Nat → Int
  programInfoLog : Nat → String
  genBuf1 : Nat
  genBuf2 : Nat
  genVAO : Nat

/-! ## Shader build helpers (glarea.rs:76-142)

A `panic!` is modelled as `Except.error msg` where `msg` is the panic
message; a normal return as `Except.ok`. -/

/-- `compile_shader(src, ty)` (glarea.rs:76-108).  Note the failure
branch: `let mut buf = Vec::with_capacity(len as usize)` creates a `Vec`
of length 0; `gl::GetShaderInfoLog` then writes the log bytes through
`buf.as_mut_ptr()` without updating the `Vec`'s length, so the slice
`&buf` handed to `str::from_utf8` is still empty and the panic message
is the empty string — not the driver's log text.  We model the visible
contents of the `Vec` as `take 0` of the log the driver wrote. -/
def compile_shader (d : Driver) (src : String) (ty : Nat) : Except String Nat :=
  let shader := d.createShader ty
  let status := d.compileStatus shader src
  if status ≠ GL_TRUE then
    let buf := (d.shaderInfoLog shader).toList.take 0
    Except.error (String.mk buf)
  else
    Except.ok shader

/-- `link_program(vs, fs)` (glarea.rs:111-142), with the same
`Vec::with_capacity`-length-0 behavior in the failure branch. -/
def link_program (d : Driver) (vs fs : Nat) : Except String Nat :=
  let program := d.createProgram
  let status := d.linkStatus vs fs
  if status ≠ GL_TRUE then
    let buf := (d.programInfoLog program).toList.take 0
    Except.error (String.mk buf)
  else
    Except.ok program

/-! ## Shared handle cells and the callback event trace

`main` creates four cells `Arc::new(Mutex::new(0))` for the vertex
buffer, index buffer, vertex array and program handles.  The realize
closure populates all four; the render closure reads them.  The toolkit
invokes the callbacks as a sequence of events, which we model as a
trace. -/

structure Cells where
  vbo : Nat
  ebo : Nat
  vao : Nat
  prog : Nat
deriving DecidableEq

/-- The cells as created in `main`: all four initialized to `0`. -/
def initCells : Cells := ⟨0, 0, 0, 0⟩

/-- The embedded vertex shader source (glarea.rs:234-242). -/
def vert_shader_source : String :=
  "\n#version 330\n\nlayout (location = 0) in vec2 position;\n\nvoid main() \x7b\n    gl_Position = vec4(position, 0.0, 1.0);\n\x7d\n"

/-- The embedded fragment shader source (glarea.rs:243-251). -/
def frag_shader_source : String :=
  "\n#version 330\n\nout vec4 color;\n\nvoid main() \x7b\n    color = vec4(1.0f, 1.0f, 1.0f, 1.0f);\n\x7d\n"

/-- The realize closure's effect on the shared cells (glarea.rs:253-288):
compile the vertex shader, compile the fragment shader, link them into
the program cell, then generate the vertex buffer, index buffer and
vertex array names.  A `panic!` anywhere aborts (propagates the error). -/
def realizeResult (d : Driver) : Except String Cells :=
  match compile_shader d vert_shader_source GL_VERTEX_SHADER with
  | Except.error e => Except.error e
  | Except.ok vert_shader =>
    match compile_shader d frag_shader_source GL_FRAGMENT_SHADER with
    | Except.error e => Except.error e
    | Except.ok frag_shader =>
      match link_program d vert_shader frag_shader with
      | Except.error e => Except.error e
      | Except.ok p => Except.ok ⟨d.genBuf1, d.genBuf2, d.genVAO, p⟩

/-- The four `GLArea` callbacks the program connects. -/
inductive Event where
  | createContext
  | resize (width height : Int)
  | realize
  | render
deriving DecidableEq

/-- How one toolkit event transforms the shared cells: only the realize
callback writes them (`none` = the process aborted inside realize). -/
def stepEvent (d : Driver) (c : Cells) : Event → Option Cells
  | Event.realize =>
    match realizeResult d with
    | Except.ok c' => some c'
    | Except.error _ => none
  | _ => some c

/-- The cells after the toolkit has delivered a trace of events. -/
def runEvents (d : Driver) (c : Cells) : List Event → Option Cells
  | [] => some c
  | e :: es =>
    match stepEvent d c e with
    | some c' => runEvents d c' es
    | none => none

/-! ## GL call traces of the render and resize closures -/

/-- One GL (or GTK render-loop) call issued by a callback, with its
arguments. -/
inductive GLCall where
  | clearColor (r g b a : ℚ)
  | clear (mask : Nat)
  | bindVertexArray (vao : Nat)
  | bindBuffer (target : Nat) (buf : Nat)
  | useProgram (prog : Nat)
  | enableVertexAttribArray (index : Nat)
  | vertexAttribPointer (index : Nat) (size : Int) (ty : Nat) (normalized : Int) (stride : Int) (offset : Nat)
  | drawElements (mode : Nat) (count : Int) (ty : Nat) (offset : Nat)
  | disableVertexAttribArray (index : Nat)
  | viewport (x y width height : Int)
  | queueRender
deriving DecidableEq

/-- The calls issued by one invocation of the render closure
(glarea.rs:295-328), in source order, for an elapsed time of
`secs` seconds plus `nanos` nanoseconds since `start` and shared cell
contents `c`. -/
def renderCalls (secs nanos : Nat) (c : Cells) : List GLCall :=
  let millis := durationMillis secs nanos
  let t := phaseOf millis
  [GLCall.clearColor (t / 2) (1 - t / 2) 1 1,
   GLCall.clear GL_COLOR_BUFFER_BIT,
   GLCall.bindVertexArray c.vao,
   GLCall.bindBuffer GL_ARRAY_BUFFER c.vbo,
   GLCall.bindBuffer GL_ELEMENT_ARRAY_BUFFER c.ebo,
   GLCall.useProgram c.prog,
   GLCall.enableVertexAttribArray 0,
   GLCall.vertexAttribPointer 0 2 GL_FLOAT GL_FALSE 0 0,
   GLCall.drawElements GL_TRIANGLES 6 GL_UNSIGNED_SHORT 0,
   GLCall.disableVertexAttribArray 0,
   GLCall.useProgram 0,
   GLCall.bindBuffer GL_ELEMENT_ARRAY_BUFFER 0,
   GLCall.bindBuffer GL_ARRAY_BUFFER 0,
   GLCall.bindVertexArray 0,
   GLCall.queueRender]

/-- The render closure's return value `gtk::Inhibit(false)`. -/
def renderInhibit : Bool := false

/-- The calls issued by the resize closure (glarea.rs:176-180):
`gl::Viewport(0, 0, width, height)`. -/
def resizeCalls (width height : Int) : List GLCall :=
  [GLCall.viewport 0 0 width height]

/-! ## Process entry without the feature flag (glarea.rs:334-337) -/

/-- Observable behavior of one process run: standard-output lines, exit
status, GL calls made. -/
structure ProcessRun where
  stdoutLines : List String
  exitCode : Nat
  glCalls : List GLCall

/-- `#[cfg(not(feature = "gtk_3_16"))] fn main`: prints the instruction
and returns.  A Rust `main` that returns `()` exits the process with
status 0; no GL or window call is made. -/
def main_without_feature : ProcessRun :=
  ⟨["You must compile with `--features gtk_3_16`!"], 0, []⟩

/-! ## Window wrapper (glarea.rs:30-72) -/

inductive WindowType where
  | Toplevel
  | Popup
deriving DecidableEq

inductive Widget where
  | glArea
deriving DecidableEq

/-- What the registered delete-event handler does when invoked:
whether it called `gtk::main_quit()` (terminating the event loop), and
the `gtk::Inhibit` value it returned. -/
structure DeleteResult where
  mainQuitCalled : Bool
  inhibit : Bool
deriving DecidableEq

/-- A GTK toplevel window as far as this program configures one. -/
structure Window where
  wtype : WindowType
  title : String
  defaultWidth : Int
  defaultHeight : Int
  children : List Widget
  deleteHandlerResult : Option DeleteResult
deriving DecidableEq

/-- `Window::new(t)`: empty title, default size unset (-1, -1), no
children, no delete handler registered. -/
def Window.new (t : WindowType) : Window :=
  ⟨t, "", -1, -1, [], none⟩

def Window.add (w : Window) (child : Widget) : Window :=
  { w with children := w.children ++ [child] }

def Window.set_title (w : Window) (t : String) : Window :=
  { w with title := t }

def Window.set_default_size (w : Window) (width height : Int) : Window :=
  { w with defaultWidth := width, defaultHeight := height }

def Window.connect_delete_event (w : Window) (handler : Unit → DeleteResult) : Window :=
  { w with deleteHandlerResult := some (handler ()) }

/-- `pub struct GlWindow` (glarea.rs:31-34). -/
structure GlWindow where
  window : Window
  gl : Widget

/-- `GlWindow::init()` (glarea.rs:38-58): create a toplevel window and a
`GLArea`, add the area to the window, set title and default size, and
register the delete handler `|_, _| { gtk::main_quit(); Inhibit(false) }`. -/
def GlWindow.init : GlWindow :=
  let _window := Window.new WindowType.Toplevel
  let _gl := Widget.glArea
  let _window := _window.add _gl
  let _window := _window.set_title "OpenGL Demo"
  let _window := _window.set_default_size 1200 800
  let _window := _window.connect_delete_event (fun _ => ⟨true, false⟩)
  ⟨_window, _gl⟩

/-! ## Concrete drivers used as witnesses -/

/-- A driver on which both the compile-status check and the link-status
check fail, with nonempty diagnostic logs. -/
def dFail : Driver :=
  ⟨fun ty => ty + 10, fun _ _ => 0, fun _ => 25, fun _ => "compile error: bad source",
   99, fun _ _ => 0, fun _ => 20, fun _ => "link error: mismatch", 0, 0, 0⟩

/-- A driver on which compilation and linking succeed and all generated
names are nonzero. -/
def dOk : Driver :=
  ⟨fun ty => ty, fun _ _ => 1, fun _ => 0, fun _ => "",
   4, fun _ _ => 1, fun _ => 0, fun _ => "", 1, 2, 3⟩

/-! ## Claims C1, C3, C4, C10 -/

/-- Claim C1 as stated is false: at `m = 500` the phase
`t = (500 % 2000) / 1000 = 0.5`, not `0.25`, and the clear color is
`(0.25, 0.75, 1, 1)`, not `(0.125, 0.875, 1, 1)`. -/
theorem scenario_phase_color_counterexample :
    ¬(phaseOf 500 = 0.25 ∧ clearColorOf 500 = (0.125, 0.875, 1, 1)) := by
  intro h
  have h1 := h.1
  norm_num [phaseOf] at h1

/-- Claim C1 (amended): for simulated elapsed milliseconds
`m = 500, 1500, 2500` the render closure's phase values are
`0.5, 1.5, 0.5` and the clear colors passed to `gl::ClearColor` are
`(0.25, 0.75, 1, 1)`, `(0.75, 0.25, 1, 1)`, `(0.25, 0.75, 1, 1)`. -/
theorem scenario_phase_color :
    phaseOf 500 = 0.5 ∧ phaseOf 1500 = 1.5 ∧ phaseOf 2500 = 0.5 ∧
    clearColorOf 500 = (0.25, 0.75, 1, 1) ∧
    clearColorOf 1500 = (0.75, 0.25, 1, 1) ∧
    clearColorOf 2500 = (0.25, 0.75, 1, 1) := by
  refine ⟨?_, ?_, ?_, ?_, ?_, ?_⟩ <;> norm_num [phaseOf, clearColorOf]

/-- Claim C3: for every milliseconds value `m`, the phase
`t = (m % 2000) / 1000` satisfies `0 ≤ t < 2`, and the clear color
`(t/2, 1 - t/2, 1, 1)` satisfies `red ∈ [0,1)`, `green ∈ (0,1]`,
`blue = 1`, `alpha = 1`, and `red + green = 1` exactly. -/
theorem phase_color_bounds (m : Nat) :
    0 ≤ phaseOf m ∧ phaseOf m < 2 ∧
    0 ≤ (clearColorOf m).1 ∧ (clearColorOf m).1 < 1 ∧
    0 < (clearColorOf m).2.1 ∧ (clearColorOf m).2.1 ≤ 1 ∧
    (clearColorOf m).2.2.1 = 1 ∧ (clearColorOf m).2.2.2 = 1 ∧
    (clearColorOf m).1 + (clearColorOf m).2.1 = 1 := by
  have hlt : (((m % 2000 : Nat) : ℚ)) < 2000 := by
    exact_mod_cast Nat.mod_lt m (by norm_num)
  have hge : (0 : ℚ) ≤ ((m % 2000 : Nat) : ℚ) := by positivity
  unfold clearColorOf phaseOf
  refine ⟨by positivity, by linarith, by positivity, by linarith,
    by linarith, by linarith, rfl, rfl, by ring⟩

/-- Claim C4: the vertex buffer holds exactly 8 floats forming 4
distinct 2D points with every coordinate in `{-0.5, 0.5}`; the index
buffer holds exactly 6 entries, each in `{0,1,2,3}`, forming 2 triangles
that cover all 4 vertices with consistent counter-clockwise winding. -/
theorem geometry_constants_spec :
    verts.length = 8 ∧
    (∀ x ∈ verts, x = 0.5 ∨ x = -0.5) ∧
    List.Pairwise (fun p q => p ≠ q) [pointOf 0, pointOf 1, pointOf 2, pointOf 3] ∧
    indices.length = 6 ∧
    (∀ i ∈ indices, i < 4) ∧
    (∀ v ∈ [0, 1, 2, 3], v ∈ indices) ∧
    0 < cross2 (triPoint 0) (triPoint 1) (triPoint 2) ∧
    0 < cross2 (triPoint 3) (triPoint 4) (triPoint 5) := by
  refine ⟨rfl, ?_, ?_, rfl, by decide, by decide, ?_, ?_⟩ <;>
    simp [verts, pointOf, triPoint, indices, cross2] <;> norm_num

/-- Claim C10: the elapsed time used by the render closure is the
duration truncated to whole milliseconds: `secs * 1000 + nanos / 10^6`
equals `⌊total nanoseconds / 10^6⌋`, and two durations that fall in the
same whole millisecond produce the same clear color. -/
theorem millis_truncation (secs nanos nanos' : Nat)
    (h : nanos < 1000000000) (h' : nanos' < 1000000000) :
    durationMillis secs nanos = (secs * 1000000000 + nanos) / 1000000 ∧
    ((secs * 1000000000 + nanos) / 1000000 = (secs * 1000000000 + nanos') / 1000000 →
      clearColorOf (durationMillis secs nanos) = clearColorOf (durationMillis secs nanos')) := by
  have key : ∀ n : Nat, durationMillis secs n = (secs * 1000000000 + n) / 1000000 := by
    intro n
    unfold durationMillis
    have : secs * 1000000000 + n = 1000000 * (secs * 1000) + n := by ring
    rw [this, Nat.mul_add_div (by norm_num)]
  refine ⟨key nanos, fun heq => ?_⟩
  rw [key nanos, key nanos', heq]

/-- Witness for `millis_truncation`: durations 1s+500000ns and
1s+999999ns both truncate to 1000 ms and give the same clear color. -/
theorem millis_truncation_witness :
    durationMillis 1 500000 = (1 * 1000000000 + 500000) / 1000000 ∧
    ((1 * 1000000000 + 500000) / 1000000 = (1 * 1000000000 + 999999) / 1000000 →
      clearColorOf (durationMillis 1 500000) = clearColorOf (durationMillis 1 999999)) :=
  millis_truncation 1 500000 999999 (by norm_num) (by norm_num)

/-! ## Claim C2 -/

/-- Claim C2 is the spec's intent, but the code has a slip: on a failed
compile-status or link-status check the helpers do abort without
returning a handle, yet the panic message is the EMPTY string, not the
driver's diagnostic log — `Vec::with_capacity(len)` leaves the buffer
length 0, `gl::Get*InfoLog` writes through the raw pointer without
updating it, and `str::from_utf8(&buf)` therefore sees an empty slice.
This theorem evaluates the code on the failure paths: the abort message
is `""` regardless of the driver's log, and no `Except.ok` handle is
returned. -/
theorem shader_failure_empty_message (d : Driver) (src : String) (ty vs fs : Nat)
    (hc : d.compileStatus (d.createShader ty) src ≠ GL_TRUE)
    (hl : d.linkStatus vs fs ≠ GL_TRUE) :
    compile_shader d src ty = Except.error "" ∧
    link_program d vs fs = Except.error "" ∧
    (∀ h, compile_shader d src ty ≠ Except.ok h) ∧
    (∀ h, link_program d vs fs ≠ Except.ok h) := by
  refine ⟨?_, ?_, ?_, ?_⟩ <;>
    simp [compile_shader, link_program, hc, hl]

/-- Witness for `shader_failure_empty_message`: on the concrete failing
driver `dFail` — whose shader log is `"compile error: bad source"` and
whose program log is `"link error: mismatch"` — both helpers abort with
the empty message. -/
theorem shader_failure_empty_message_witness :
    compile_shader dFail "not glsl" GL_VERTEX_SHADER = Except.error "" ∧
    link_program dFail 7 8 = Except.error "" :=
  ⟨(shader_failure_empty_message dFail "not glsl" GL_VERTEX_SHADER 7 8
      (by decide) (by decide)).1,
   (shader_failure_empty_message dFail "not glsl" GL_VERTEX_SHADER 7 8
      (by decide) (by decide)).2.1⟩

/-! ## Claim C5 -/

/-- Helper: a non-realize event leaves the cells unchanged. -/
theorem stepEvent_ne_realize (d : Driver) (c : Cells) (e : Event)
    (he : e ≠ Event.realize) : stepEvent d c e = some c := by
  cases e <;> simp [stepEvent] at he ⊢

/-- Helper: once the cells hold the realize result, every further trace
leaves them there. -/
theorem runEvents_fixed (d : Driver) (cells : Cells)
    (hre : realizeResult d = Except.ok cells) :
    ∀ es : List Event, runEvents d cells es = some cells := by
  intro es
  induction es with
  | nil => rfl
  | cons e es ih =>
    cases e <;> simpa [runEvents, stepEvent, hre] using ih

/-- Helper: a trace containing a realize event ends with the cells
holding the realize result, from any starting cells. -/
theorem runEvents_after_realize (d : Driver) (cells : Cells)
    (hre : realizeResult d = Except.ok cells) :
    ∀ (es : List Event) (c : Cells),
      Event.realize ∈ es → runEvents d c es = some cells := by
  intro es
  induction es with
  | nil => intro c hc; simp at hc
  | cons e es ih =>
    intro c hc
    by_cases he : e = Event.realize
    · subst he
      simp [runEvents, stepEvent, hre, runEvents_fixed d cells hre es]
    · rw [runEvents, stepEvent_ne_realize d c e he]
      have hmem : Event.realize ∈ es := by
        rcases List.mem_cons.mp hc with h1 | h1
        · exact absurd h1.symm he
        · exact h1
      exact ih c hmem

/-- Claim C5: in any callback trace in which a realize event precedes
the render event at position `i` (the toolkit's guaranteed ordering),
and in which realize succeeded with driver-generated handles that are
nonzero (the GL guarantee that generated names are unused, nonzero
names), the render callback at `i` observes exactly the cells realize
populated — never the uninitialized all-zero state. -/
theorem realize_before_render_initialized (d : Driver) (cells : Cells)
    (tr : List Event) (i : Nat)
    (hre : realizeResult d = Except.ok cells)
    (hnz : cells.vbo ≠ 0 ∧ cells.ebo ≠ 0 ∧ cells.vao ≠ 0 ∧ cells.prog ≠ 0)
    (hi : i < tr.length)
    (hrender : tr.get ⟨i, hi⟩ = Event.render)
    (hbefore : Event.realize ∈ tr.take i) :
    runEvents d initCells (tr.take i) = some cells ∧
    cells ≠ initCells ∧
    cells.vbo ≠ 0 ∧ cells.ebo ≠ 0 ∧ cells.vao ≠ 0 ∧ cells.prog ≠ 0 := by
  refine ⟨runEvents_after_realize d cells hre _ _ hbefore, ?_,
    hnz.1, hnz.2.1, hnz.2.2.1, hnz.2.2.2⟩
  intro hceq
  exact hnz.1 (by rw [hceq]; rfl)

/-- Witness for `realize_before_render_initialized`: on the successful
driver `dOk` and the trace `[realize, render]`, the render at position 1
observes the populated cells `⟨1, 2, 3, 4⟩`. -/
theorem realize_before_render_initialized_witness :
    runEvents dOk initCells ([Event.realize, Event.render].take 1) = some ⟨1, 2, 3, 4⟩ ∧
    (⟨1, 2, 3, 4⟩ : Cells) ≠ initCells ∧
    (⟨1, 2, 3, 4⟩ : Cells).vbo ≠ 0 ∧ (⟨1, 2, 3, 4⟩ : Cells).ebo ≠ 0 ∧
    (⟨1, 2, 3, 4⟩ : Cells).vao ≠ 0 ∧ (⟨1, 2, 3, 4⟩ : Cells).prog ≠ 0 :=
  realize_before_render_initialized dOk ⟨1, 2, 3, 4⟩ [Event.realize, Event.render] 1
    rfl (by decide) (by decide) (by decide) (by decide)

/-! ## Claim C6 -/

/-- Claim C6: every render invocation issues, in order: the clear-color
call with the color derived from the truncated elapsed milliseconds and
the 2-second-period phase, a color-buffer clear, binds of the vertex
array, vertex buffer, index buffer and program, enabling of vertex
attribute 0 as 2 tightly-packed non-normalized floats, an indexed
triangle draw of 6 indices, the unbinds of attribute, program, buffers
and vertex array, and finally the request for another render. -/
theorem render_callback_sequence (secs nanos : Nat) (c : Cells) :
    renderCalls secs nanos c =
      [GLCall.clearColor ((clearColorOf (durationMillis secs nanos)).1)
         ((clearColorOf (durationMillis secs nanos)).2.1)
         ((clearColorOf (durationMillis secs nanos)).2.2.1)
         ((clearColorOf (durationMillis secs nanos)).2.2.2),
       GLCall.clear GL_COLOR_BUFFER_BIT,
       GLCall.bindVertexArray c.vao,
       GLCall.bindBuffer GL_ARRAY_BUFFER c.vbo,
       GLCall.bindBuffer GL_ELEMENT_ARRAY_BUFFER c.ebo,
       GLCall.useProgram c.prog,
       GLCall.enableVertexAttribArray 0,
       GLCall.vertexAttribPointer 0 2 GL_FLOAT GL_FALSE 0 0,
       GLCall.drawElements GL_TRIANGLES 6 GL_UNSIGNED_SHORT 0,
       GLCall.disableVertexAttribArray 0,
       GLCall.useProgram 0,
       GLCall.bindBuffer GL_ELEMENT_ARRAY_BUFFER 0,
       GLCall.bindBuffer GL_ARRAY_BUFFER 0,
       GLCall.bindVertexArray 0,
       GLCall.queueRender] := by
  simp [renderCalls, clearColorOf]

/-! ## Claim C7 -/

/-- Claim C7: every resize callback invocation with pixel dimensions
`(width, height)` issues exactly the viewport call
`(0, 0, width, height)`; in particular 640×480 gives `(0, 0, 640, 480)`. -/
theorem resize_sets_viewport :
    (∀ width height : Int, resizeCalls width height = [GLCall.viewport 0 0 width height]) ∧
    resizeCalls 640 480 = [GLCall.viewport 0 0 640 480] :=
  ⟨fun _ _ => rfl, rfl⟩

/-! ## Claim C8 -/

/-- Claim C8: built without the `gtk_3_16` feature, the program prints
the instructional message, exits with status 0, and performs no GL or
window operation. -/
theorem no_feature_main_behavior :
    main_without_feature.stdoutLines = ["You must compile with `--features gtk_3_16`!"] ∧
    main_without_feature.exitCode = 0 ∧
    main_without_feature.glCalls = [] :=
  ⟨rfl, rfl, rfl⟩

/-! ## Claim C9 -/

/-- Claim C9: `GlWindow::init()` creates one toplevel window whose only
child is the GL drawing area, with title "OpenGL Demo", default size
1200×800, and a registered delete handler that calls `gtk::main_quit()`
(terminating the event loop) and returns `Inhibit(false)`. -/
theorem glwindow_init_contract :
    GlWindow.init.window.wtype = WindowType.Toplevel ∧
    GlWindow.init.window.children = [Widget.glArea] ∧
    GlWindow.init.gl = Widget.glArea ∧
    GlWindow.init.window.title = "OpenGL Demo" ∧
    GlWindow.init.window.defaultWidth = 1200 ∧
    GlWindow.init.window.defaultHeight = 800 ∧
    GlWindow.init.window.deleteHandlerResult = some ⟨true, false⟩ :=
  ⟨rfl, rfl, rfl, rfl, rfl, rfl, rfl⟩
